import Mathlib

/-!
Verification of the shared Cloudflare API client core
(`src/scripts/secrets.js`, which bundles the shared `utils.js` module):
configuration loading (`loadConfig`), the single-attempt authenticated
request (`makeApiRequest`), the user-facing error message mapping
(`CloudflareApiError.getUserMessage`), and the retry orchestrator with
exponential backoff (`makeApiRequestWithRetry`).

The embedding abstracts the HTTP transport as an explicit outcome value
(network failure, or a response with a status, a status text, and a body
that either parses as JSON or does not), and instruments the retry loop
with a trace recording the number of underlying calls and the sequence of
backoff waits.
-/

/-- Structured error entry of the API response envelope: an object with a
numeric code and a message, as produced in `data.errors`. -/
structure ApiErrorEntry where
  code : Int
  message : String
deriving DecidableEq, Repr

/-- Parsed JSON response body, restricted to the fields the client core
inspects: the truthiness of `data.success`, the `data.errors` array
(`none` models an absent or falsy field, matching the source expression
`data.errors || []`), and an opaque serialization of the `result`
payload, which the core never inspects. -/
structure ResponseData where
  success : Bool
  errors : Option (List ApiErrorEntry)
  result : Option String
deriving DecidableEq, Repr

/-- Classified API failure, embedding the `CloudflareApiError` class
(`message`, `statusCode`, `errors`); the constructor default
`errors || []` is modeled by the field always being a plain list. -/
structure CloudflareApiError where
  message : String
  statusCode : Nat
  errors : List ApiErrorEntry
deriving DecidableEq, Repr

/-- Failure value thrown by `makeApiRequest` or the retry loop: either a
`CloudflareApiError` instance, or a plain `Error` (network failures and
the wrapped JSON-parse failures, plus the retry loop fallback). -/
inductive RequestError where
  | classified (e : CloudflareApiError)
  | network (message : String)
deriving DecidableEq, Repr

/-- Body of an HTTP response as seen after `response.json()`: either the
parse throws (invalid JSON, with the thrown message), or it yields data. -/
inductive JsonBody where
  | invalid (message : String)
  | parsed (data : ResponseData)
deriving DecidableEq, Repr

/-- Outcome of the `fetch` call itself: either `fetch` rejects (DNS or
connection failure, with the thrown message), or a response arrives with
a transport status code, a status text, and a body. -/
inductive FetchOutcome where
  | failure (message : String)
  | response (status : Nat) (statusText : String) (body : JsonBody)
deriving DecidableEq, Repr

/-- JavaScript value supplied as `options.body` to `makeApiRequest`:
`undef` models an absent body; an object or array is carried together
with its `JSON.stringify` serialization. -/
inductive JsBody where
  | undef
  | nullVal
  | boolVal (b : Bool)
  | numVal (n : Int)
  | strVal (s : String)
  | objVal (serialized : String)
deriving DecidableEq, Repr

/-- Truthiness of a `JsBody` value, as tested by `if (body && ...)`. -/
def JsBody.truthy : JsBody → Bool
  | .undef => false
  | .nullVal => false
  | .boolVal b => b
  | .numVal n => decide (n ≠ 0)
  | .strVal s => decide (s ≠ "")
  | .objVal _ => true

/-- Result of `JSON.stringify` on a `JsBody` value (the branch taken for
non-string bodies; an object or array stringifies to its carried
serialization). -/
def JsBody.stringify : JsBody → String
  | .undef => ""
  | .nullVal => "null"
  | .boolVal b => if b then "true" else "false"
  | .numVal n => toString n
  | .strVal s => "\"" ++ s ++ "\""
  | .objVal serialized => serialized

/-- Request descriptor: the endpoint path, the HTTP method (the source
defaults it to GET), and the body. Descriptor-supplied headers and query
parameters are not modeled; no claim concerns them. -/
structure RequestDescriptor where
  endpoint : String
  method : String
  body : JsBody
deriving DecidableEq, Repr

/-- Request body attached by `makeApiRequest` (utils.js lines
`if (body && method !== 'GET') { ... }`): attached only when the body is
truthy and the method is not GET; a string body is sent as-is, any other
body is passed through `JSON.stringify`. -/
def requestBodyOf (method : String) (body : JsBody) : Option String :=
  if body.truthy ∧ method ≠ "GET" then
    some (match body with
      | .strVal s => s
      | b => JsBody.stringify b)
  else none

/-- Process environment fields read by `loadConfig`; `none` models an
unset variable. -/
structure ProcessEnv where
  CLOUDFLARE_API_KEY : Option String
  CLOUDFLARE_ACCOUNT_ID : Option String
  CLOUDFLARE_EMAIL : Option String
deriving DecidableEq, Repr

/-- Configuration record returned by `loadConfig`. -/
structure CloudflareConfig where
  apiKey : String
  accountId : Option String
  email : Option String
deriving DecidableEq, Repr

/-- Configuration failure thrown by `loadConfig` when the credential is
missing (a plain `Error` in the source; the spec taxonomy names it
`ConfigurationError`). -/
structure ConfigurationError where
  message : String
deriving DecidableEq, Repr

/-- Message of the error thrown by `loadConfig` when
`CLOUDFLARE_API_KEY` is falsy. -/
def apiKeyMissingMessage : String :=
  "CLOUDFLARE_API_KEY not found in environment\n\n" ++
    "Solution: Create .env file in project root:\n" ++
    "  echo \"CLOUDFLARE_API_KEY=your_token_here\" > .env\n\n" ++
    "Get your API token at: https://dash.cloudflare.com/profile/api-tokens"

/-- Embedding of `loadConfig`: reads `process.env.CLOUDFLARE_API_KEY`,
throws when it is falsy (unset or the empty string), and otherwise
returns the credential together with the optional account id and email. -/
def loadConfig (env : ProcessEnv) : Except ConfigurationError CloudflareConfig :=
  match env.CLOUDFLARE_API_KEY with
  | none => .error ⟨apiKeyMissingMessage⟩
  | some apiKey =>
    if apiKey = "" then .error ⟨apiKeyMissingMessage⟩
    else .ok ⟨apiKey, env.CLOUDFLARE_ACCOUNT_ID, env.CLOUDFLARE_EMAIL⟩

/-- Embedding of the try block of `makeApiRequest` (response handling):
a `fetch` rejection or a `response.json()` parse failure is caught and
rethrown as a plain network error; a non-2xx status throws a
`CloudflareApiError` with the transport status and `data.errors || []`;
a 2xx status with a falsy `success` flag throws a `CloudflareApiError`
with the (2xx) status and `data.errors || []`; otherwise the parsed data
is returned unchanged. `response.ok` is status 200..299. The
construction of the URL, the authorization headers, and the
configuration load at entry are not modeled; the attached request body
is modeled separately by `requestBodyOf`. The transport receives the
attached body and yields the fetch outcome. -/
def makeApiRequest (desc : RequestDescriptor)
    (transport : Option String → FetchOutcome) :
    Except RequestError ResponseData :=
  match transport (requestBodyOf desc.method desc.body) with
  | .failure msg => .error (.network ("Network error: " ++ msg))
  | .response status statusText body =>
    match body with
    | .invalid msg => .error (.network ("Network error: " ++ msg))
    | .parsed data =>
      if ¬ (200 ≤ status ∧ status ≤ 299) then
        .error (.classified
          ⟨"API request failed: " ++ statusText, status, data.errors.getD []⟩)
      else if ¬ data.success then
        .error (.classified
          ⟨"API returned success: false", status, data.errors.getD []⟩)
      else
        .ok data

/-- Guidance returned by `getUserMessage` for status 401 or 403. -/
def authFailedMessage : String :=
  "Authentication failed. Your API key may be invalid or lack required permissions.\n\n" ++
    "Solutions:\n" ++
    "1. Verify CLOUDFLARE_API_KEY in .env is correct\n" ++
    "2. Run: node scripts/validate-api-key.js\n" ++
    "3. Update token permissions at: https://dash.cloudflare.com/profile/api-tokens"

/-- Guidance returned by `getUserMessage` for status 429. -/
def rateLimitMessage : String :=
  "Rate limit exceeded. Too many requests to Cloudflare API.\n\n" ++
    "Solution: Wait a moment and try again. The script will retry automatically."

/-- Guidance returned by `getUserMessage` for status 404. -/
def notFoundMessage : String :=
  "Resource not found. The requested resource may not exist or may have been deleted.\n\n" ++
    "Solution: Verify the resource name/ID and try again."

/-- Guidance returned by `getUserMessage` for status 500 and above. -/
def serverErrorMessage : String :=
  "Cloudflare API server error. This is a temporary issue on Cloudflare\x27s side.\n\n" ++
    "Solution: Wait a moment and try again."

/-- Listing of the structured errors appended by the default branch of
`getUserMessage`: empty when there are no errors, otherwise a header
followed by one line per error message. -/
def errorsListing (errors : List ApiErrorEntry) : String :=
  if errors.isEmpty then ""
  else "\n\nAPI Errors:" ++ String.join (errors.map (fun er => "\n  - " ++ er.message))

/-- Embedding of `CloudflareApiError.getUserMessage`: the nested `if`
chain of the source, checked in order — 401 or 403, then 429, then 404,
then status at least 500, then the default branch returning the raw
message followed by the listing of structured error messages. -/
def CloudflareApiError.getUserMessage (e : CloudflareApiError) : String :=
  if e.statusCode = 401 ∨ e.statusCode = 403 then authFailedMessage
  else if e.statusCode = 429 then rateLimitMessage
  else if e.statusCode = 404 then notFoundMessage
  else if 500 ≤ e.statusCode then serverErrorMessage
  else e.message ++ errorsListing e.errors

/-- Retry parameters of `makeApiRequestWithRetry` (source defaults:
3 attempts, 1000 ms base delay, 10000 ms maximum delay). -/
structure RetryOptions where
  maxAttempts : Nat
  baseDelay : Nat
  maxDelay : Nat
deriving DecidableEq, Repr

/-- The source default retry options. -/
def defaultRetryOptions : RetryOptions := ⟨3, 1000, 10000⟩

/-- Instrumented outcome of the retry loop: the value returned or the
error thrown, the number of underlying `makeApiRequest` calls issued,
and the list of backoff waits performed (in milliseconds, in order). -/
structure RetryTrace where
  result : Except RequestError ResponseData
  calls : Nat
  waits : List Nat
deriving Repr

/-- Test applied by the retry loop to decide immediate propagation: the
failure is a `CloudflareApiError` whose status is a client error (at
least 400 and below 500) other than 429. -/
def isNonRetryable : RequestError → Bool
  | .classified e =>
    decide (400 ≤ e.statusCode ∧ e.statusCode < 500 ∧ e.statusCode ≠ 429)
  | .network _ => false

/-- Backoff delay before the retry that follows the given (1-indexed)
attempt: `Math.min(baseDelay * Math.pow(2, attempt - 1), maxDelay)`. -/
def backoffDelay (opts : RetryOptions) (attempt : Nat) : Nat :=
  min (opts.baseDelay * 2 ^ (attempt - 1)) opts.maxDelay

/-- Body of the retry loop of `makeApiRequestWithRetry`, by recursion on
the number of remaining allowed attempts; `attempt` is the 1-indexed
number of the current attempt, and `remaining + 1` attempts are still
allowed when the argument is `remaining + 1`. Each per-attempt call of
`makeApiRequest` is abstracted as `exec attempt` (the transport may
answer differently on each attempt). A success returns at once; a
non-retryable classified error is rethrown at once; the last allowed
attempt breaks out of the loop and the last error is rethrown; otherwise
the loop sleeps for the backoff delay and retries. -/
def retryFromAttempt (exec : Nat → Except RequestError ResponseData)
    (opts : RetryOptions) : Nat → Nat → RetryTrace
  | _, 0 => ⟨.error (.network "All retry attempts failed"), 0, []⟩
  | attempt, remaining + 1 =>
    match exec attempt with
    | .ok data => ⟨.ok data, 1, []⟩
    | .error e =>
      if isNonRetryable e then ⟨.error e, 1, []⟩
      else if remaining = 0 then ⟨.error e, 1, []⟩
      else
        let t := retryFromAttempt exec opts (attempt + 1) remaining
        ⟨t.result, t.calls + 1, backoffDelay opts attempt :: t.waits⟩

/-- Embedding of `makeApiRequestWithRetry`: runs the attempt loop from
attempt 1 with `maxAttempts` allowed attempts (when `maxAttempts` is 0
the loop never runs and the fallback error is thrown). -/
def makeApiRequestWithRetry (exec : Nat → Except RequestError ResponseData)
    (opts : RetryOptions) : RetryTrace :=
  retryFromAttempt exec opts 1 opts.maxAttempts

/-- Discriminator used when refuting a claim about `makeApiRequest`:
whether the outcome is a thrown `CloudflareApiError`. -/
def isClassifiedFailure : Except RequestError ResponseData → Bool
  | .error (.classified _) => true
  | _ => false

/-- Retry loop, success path: if every attempt before attempt `j` fails
with a retryable error and attempt `j` succeeds within the allowed
window, the loop returns the successful data having issued exactly the
calls up to `j`, with one backoff wait before each retry. -/
theorem retryFromAttempt_ok (exec : Nat → Except RequestError ResponseData)
    (opts : RetryOptions) :
    ∀ (remaining start j : Nat) (env : ResponseData),
      start ≤ j → j < start + remaining →
      (∀ i, start ≤ i → i < j → ∃ e, exec i = .error e ∧ isNonRetryable e = false) →
      exec j = .ok env →
      (retryFromAttempt exec opts start remaining).result = .ok env ∧
      (retryFromAttempt exec opts start remaining).calls = j + 1 - start ∧
      (retryFromAttempt exec opts start remaining).waits =
        (List.range' start (j - start)).map (backoffDelay opts) := by
  intro remaining
  induction remaining with
  | zero =>
    intro start j env h1 h2 _ _
    omega
  | succ r ih =>
    intro start j env h1 h2 hfail hok
    rcases Nat.eq_or_lt_of_le h1 with heq | hlt
    · subst heq
      simp [retryFromAttempt, hok, List.range', Nat.sub_self]
    · obtain ⟨e, he, hnr⟩ := hfail start le_rfl hlt
      have hr0 : r ≠ 0 := by omega
      have ihres := ih (start + 1) j env (by omega) (by omega)
        (fun i hi hij => hfail i (by omega) hij) hok
      have hcons : List.range' start (j - start) =
          start :: List.range' (start + 1) (j - (start + 1)) := by
        have hn : j - start = (j - (start + 1)) + 1 := by omega
        rw [hn]
        rfl
      simp only [retryFromAttempt, he, hnr, hr0, if_false, Bool.false_eq_true,
        if_neg (fun h => hr0 h)]
      refine ⟨ihres.1, ?_, ?_⟩
      · have := ihres.2.1
        omega
      · rw [hcons, List.map_cons, ihres.2.2]

/-- Retry loop, exhaustion path: if every attempt in the allowed window
fails, the loop throws the error of the last attempt it issued, and it
issues between 1 and `remaining` calls. -/
theorem retryFromAttempt_allFail (exec : Nat → Except RequestError ResponseData)
    (opts : RetryOptions) :
    ∀ (remaining start : Nat), 1 ≤ remaining →
      (∀ i, start ≤ i → i < start + remaining → ∃ e, exec i = .error e) →
      ∃ e, (retryFromAttempt exec opts start remaining).result = .error e ∧
        exec (start + (retryFromAttempt exec opts start remaining).calls - 1) = .error e ∧
        1 ≤ (retryFromAttempt exec opts start remaining).calls ∧
        (retryFromAttempt exec opts start remaining).calls ≤ remaining := by
  intro remaining
  induction remaining with
  | zero =>
    intro start h
    omega
  | succ r ih =>
    intro start _ hfail
    obtain ⟨e, he⟩ := hfail start le_rfl (by omega)
    by_cases hnr : isNonRetryable e
    · refine ⟨e, ?_⟩
      simp [retryFromAttempt, he, hnr]
    · rcases Nat.eq_zero_or_pos r with hr | hr
      · subst hr
        refine ⟨e, ?_⟩
        simp [retryFromAttempt, he, hnr]
      · have hr0 : r ≠ 0 := by omega
        obtain ⟨e2, hres, hexec2, hc1, hc2⟩ :=
          ih (start + 1) hr (fun i hi hlt => hfail i (by omega) (by omega))
        refine ⟨e2, ?_, ?_, ?_, ?_⟩ <;>
          simp only [retryFromAttempt, he, hnr, hr0, Bool.false_eq_true,
            if_false, if_neg (fun h => hr0 h)]
        · exact hres
        · have harith : start + ((retryFromAttempt exec opts (start + 1) r).calls + 1) - 1 =
              start + 1 + (retryFromAttempt exec opts (start + 1) r).calls - 1 := by
            omega
          rw [harith]
          exact hexec2
        · omega
        · omega

/-- Retry loop, all-transient path: if every attempt in the allowed
window fails with a retryable error, the loop issues exactly `remaining`
calls, waits the backoff delay after each attempt but the last, and
throws the error of the final attempt. -/
theorem retryFromAttempt_transientAll (exec : Nat → Except RequestError ResponseData)
    (opts : RetryOptions) :
    ∀ (remaining start : Nat), 1 ≤ remaining →
      (∀ i, start ≤ i → i < start + remaining →
        ∃ e, exec i = .error e ∧ isNonRetryable e = false) →
      (retryFromAttempt exec opts start remaining).calls = remaining ∧
      (retryFromAttempt exec opts start remaining).waits =
        (List.range' start (remaining - 1)).map (backoffDelay opts) ∧
      ∃ e, exec (start + remaining - 1) = .error e ∧
        (retryFromAttempt exec opts start remaining).result = .error e := by
  intro remaining
  induction remaining with
  | zero =>
    intro start h
    omega
  | succ r ih =>
    intro start _ hfail
    obtain ⟨e, he, hnr⟩ := hfail start le_rfl (by omega)
    rcases Nat.eq_zero_or_pos r with hr | hr
    · subst hr
      simp [retryFromAttempt, he, hnr, List.range']
    · have hr0 : r ≠ 0 := by omega
      obtain ⟨hcalls, hwaits, e2, hexec2, hres⟩ :=
        ih (start + 1) hr (fun i hi hlt => hfail i (by omega) (by omega))
      have hcons : List.range' start r =
          start :: List.range' (start + 1) (r - 1) := by
        have hn : r = (r - 1) + 1 := by omega
        rw [hn]
        rfl
      refine ⟨?_, ?_, ?_⟩ <;>
        simp only [retryFromAttempt, he, hnr, hr0, Bool.false_eq_true,
          if_false, if_neg (fun h => hr0 h), Nat.add_sub_cancel]
      · omega
      · rw [hcons, List.map_cons, hwaits]
      · refine ⟨e2, ?_, hres⟩
        have harith : start + (r + 1) - 1 = start + 1 + r - 1 := by omega
        rw [harith]
        exact hexec2

/-- Claim C1: for every failure that is a classified error whose status
is in [400, 500) and is not 429, `makeApiRequestWithRetry` issues exactly
one underlying call, propagates that error immediately, and performs no
backoff wait, regardless of the configured maximum attempts. -/
theorem retry_client_error_immediate
    (exec : Nat → Except RequestError ResponseData) (opts : RetryOptions)
    (ce : CloudflareApiError)
    (hmax : 1 ≤ opts.maxAttempts)
    (hexec : exec 1 = .error (.classified ce))
    (h400 : 400 ≤ ce.statusCode) (h500 : ce.statusCode < 500)
    (h429 : ce.statusCode ≠ 429) :
    (makeApiRequestWithRetry exec opts).result = .error (.classified ce) ∧
    (makeApiRequestWithRetry exec opts).calls = 1 ∧
    (makeApiRequestWithRetry exec opts).waits = [] := by
  obtain ⟨r, hr⟩ : ∃ r, opts.maxAttempts = r + 1 := ⟨opts.maxAttempts - 1, by omega⟩
  have hnr : isNonRetryable (.classified ce) = true := by
    simp only [isNonRetryable, decide_eq_true_eq]
    exact ⟨h400, h500, h429⟩
  unfold makeApiRequestWithRetry
  rw [hr]
  simp [retryFromAttempt, hexec, hnr]

/-- Witness for C1: a 404 failure with the default options is propagated
after a single call. -/
theorem retry_client_error_immediate_witness :
    (makeApiRequestWithRetry
        (fun _ => .error (.classified ⟨"API request failed: Not Found", 404, []⟩))
        defaultRetryOptions).calls = 1 :=
  (retry_client_error_immediate
      (fun _ => .error (.classified ⟨"API request failed: Not Found", 404, []⟩))
      defaultRetryOptions ⟨"API request failed: Not Found", 404, []⟩
      (by decide) rfl (by decide) (by decide) (by decide)).2.1

/-- Claim C2: when every attempt fails with a transient failure and
`maxAttempts` is 3, `makeApiRequestWithRetry` issues exactly 3 underlying
calls, waiting `min(base, max)` and then `min(base * 2, max)` milliseconds
between consecutive attempts, and throws the failure of attempt 3. -/
theorem retry_transient_exhausts_three_attempts
    (exec : Nat → Except RequestError ResponseData) (b m : Nat)
    (hfail : ∀ i, 1 ≤ i → i ≤ 3 →
      ∃ e, exec i = .error e ∧ isNonRetryable e = false) :
    (makeApiRequestWithRetry exec ⟨3, b, m⟩).calls = 3 ∧
    (makeApiRequestWithRetry exec ⟨3, b, m⟩).waits = [min b m, min (b * 2) m] ∧
    ∃ e, exec 3 = .error e ∧
      (makeApiRequestWithRetry exec ⟨3, b, m⟩).result = .error e := by
  obtain ⟨hcalls, hwaits, e, hexec, hres⟩ :=
    retryFromAttempt_transientAll exec ⟨3, b, m⟩ 3 1 (by omega)
      (fun i hi hlt => hfail i hi (by omega))
  refine ⟨hcalls, ?_, e, ?_, hres⟩
  · rw [show makeApiRequestWithRetry exec ⟨3, b, m⟩ =
        retryFromAttempt exec ⟨3, b, m⟩ 1 3 from rfl, hwaits]
    norm_num [backoffDelay, List.range']
  · exact hexec

/-- Witness for C2: a constantly failing 500 response with base delay
1000 and cap 10000 produces waits of 1000 and 2000 milliseconds. -/
theorem retry_transient_exhausts_three_attempts_witness :
    (makeApiRequestWithRetry
        (fun _ => .error (.classified ⟨"API request failed: Internal Server Error", 500, []⟩))
        ⟨3, 1000, 10000⟩).waits = [1000, 2000] := by
  have h := (retry_transient_exhausts_three_attempts
      (fun _ => .error (.classified ⟨"API request failed: Internal Server Error", 500, []⟩))
      1000 10000
      (fun i _ _ =>
        ⟨.classified ⟨"API request failed: Internal Server Error", 500, []⟩,
          rfl, by decide⟩)).2.1
  simpa using h

/-- Claim C3: if every attempt before attempt `j` fails transiently and
attempt `j` (within the allowed window) succeeds, `makeApiRequestWithRetry`
returns that result having issued exactly `j` calls with `j - 1` waits; in
particular a descriptor that always succeeds costs exactly one call. -/
theorem retry_first_success_returns
    (exec : Nat → Except RequestError ResponseData) (opts : RetryOptions)
    (j : Nat) (env : ResponseData)
    (h1 : 1 ≤ j) (hj : j ≤ opts.maxAttempts)
    (hfail : ∀ i, 1 ≤ i → i < j →
      ∃ e, exec i = .error e ∧ isNonRetryable e = false)
    (hok : exec j = .ok env) :
    (makeApiRequestWithRetry exec opts).result = .ok env ∧
    (makeApiRequestWithRetry exec opts).calls = j ∧
    (makeApiRequestWithRetry exec opts).waits.length = j - 1 := by
  have base := retryFromAttempt_ok exec opts opts.maxAttempts 1 j env h1 (by omega)
    hfail hok
  refine ⟨base.1, ?_, ?_⟩
  · have h2 := base.2.1
    simp only [makeApiRequestWithRetry]
    omega
  · simp only [makeApiRequestWithRetry]
    rw [base.2.2]
    simp

/-- Witness for C3: an always-succeeding execution with the default
options returns after exactly one call. -/
theorem retry_first_success_returns_witness :
    (makeApiRequestWithRetry (fun _ => .ok ⟨true, none, none⟩)
        defaultRetryOptions).calls = 1 :=
  (retry_first_success_returns (fun _ => .ok ⟨true, none, none⟩)
      defaultRetryOptions 1 ⟨true, none, none⟩ (by decide) (by decide)
      (fun i hi hlt => absurd hlt (by omega)) rfl).2.1

/-- Claim C8: when every allowed attempt fails, `makeApiRequestWithRetry`
throws the failure observed on the last call it issued — it never returns
a success in place of an error. -/
theorem retry_exhaustion_propagates_last_error
    (exec : Nat → Except RequestError ResponseData) (opts : RetryOptions)
    (hmax : 1 ≤ opts.maxAttempts)
    (hfail : ∀ i, 1 ≤ i → i ≤ opts.maxAttempts → ∃ e, exec i = .error e) :
    ∃ e, (makeApiRequestWithRetry exec opts).result = .error e ∧
      exec ((makeApiRequestWithRetry exec opts).calls) = .error e ∧
      1 ≤ (makeApiRequestWithRetry exec opts).calls ∧
      (makeApiRequestWithRetry exec opts).calls ≤ opts.maxAttempts := by
  obtain ⟨e, hres, hexec, hc1, hc2⟩ :=
    retryFromAttempt_allFail exec opts opts.maxAttempts 1 hmax
      (fun i hi hlt => hfail i hi (by omega))
  have harith : 1 + (retryFromAttempt exec opts 1 opts.maxAttempts).calls - 1 =
      (retryFromAttempt exec opts 1 opts.maxAttempts).calls := by omega
  rw [harith] at hexec
  exact ⟨e, hres, hexec, hc1, hc2⟩

/-- Witness for C8: a constantly failing network error with the default
options is propagated as the thrown result. -/
theorem retry_exhaustion_propagates_last_error_witness :
    (makeApiRequestWithRetry (fun _ => .error (.network "Network error: socket hang up"))
        defaultRetryOptions).result = .error (.network "Network error: socket hang up") := by
  obtain ⟨e, hres, hexec, _, _⟩ := retry_exhaustion_propagates_last_error
      (fun _ => .error (.network "Network error: socket hang up")) defaultRetryOptions
      (by decide) (fun i _ _ => ⟨.network "Network error: socket hang up", rfl⟩)
  cases hexec
  exact hres

/-- Counterexample to claim C4: a 404 response whose body is not valid
JSON does not produce a classified error at all — the `response.json()`
rejection is caught and rethrown as a plain network error, so the
transport status and an empty error list are not carried. -/
theorem non2xx_unparsable_body_yields_network_error :
    makeApiRequest ⟨"/zones", "GET", .undef⟩
        (fun _ => .response 404 "Not Found" (.invalid "Unexpected end of JSON input")) =
      .error (.network "Network error: Unexpected end of JSON input") ∧
    isClassifiedFailure
      (makeApiRequest ⟨"/zones", "GET", .undef⟩
        (fun _ => .response 404 "Not Found" (.invalid "Unexpected end of JSON input"))) =
      false :=
  ⟨rfl, rfl⟩

/-- Claim C4 as amended: for every response with a non-2xx transport
status whose body parses as JSON, `makeApiRequest` fails with a
classified error carrying that status and the structured errors of the
body (the empty list when the body lacks an error array); when JSON
parsing of the body fails, it fails with a generic network error
instead of a classified error. -/
theorem non2xx_classified_or_network
    (desc : RequestDescriptor) (status : Nat) (statusText msg : String)
    (data : ResponseData)
    (hstatus : ¬ (200 ≤ status ∧ status ≤ 299)) :
    makeApiRequest desc (fun _ => .response status statusText (.parsed data)) =
      .error (.classified
        ⟨"API request failed: " ++ statusText, status, data.errors.getD []⟩) ∧
    makeApiRequest desc (fun _ => .response status statusText (.invalid msg)) =
      .error (.network ("Network error: " ++ msg)) := by
  refine ⟨?_, rfl⟩
  simp [makeApiRequest, hstatus]

/-- Witness for the amended C4: a 502 response whose body has no error
array yields a classified error with status 502 and an empty list. -/
theorem non2xx_classified_or_network_witness :
    makeApiRequest ⟨"/zones", "GET", .undef⟩
        (fun _ => .response 502 "Bad Gateway" (.parsed ⟨false, none, none⟩)) =
      .error (.classified ⟨"API request failed: Bad Gateway", 502, []⟩) :=
  (non2xx_classified_or_network ⟨"/zones", "GET", .undef⟩ 502 "Bad Gateway" "x"
      ⟨false, none, none⟩ (by decide)).1

/-- Claim C5: a 2xx response whose envelope has a falsy success flag
fails with a classified error carrying the 2xx status and the envelope
errors; a 2xx response whose envelope has a true success flag returns
the parsed envelope unchanged. -/
theorem twoxx_envelope_success_check
    (desc : RequestDescriptor) (status : Nat) (statusText : String)
    (data : ResponseData)
    (h2 : 200 ≤ status) (h3 : status ≤ 299) :
    (data.success = false →
      makeApiRequest desc (fun _ => .response status statusText (.parsed data)) =
        .error (.classified
          ⟨"API returned success: false", status, data.errors.getD []⟩)) ∧
    (data.success = true →
      makeApiRequest desc (fun _ => .response status statusText (.parsed data)) =
        .ok data) := by
  constructor <;> intro hs <;> simp [makeApiRequest, h2, h3, hs]

/-- Witness for C5: a 200 response with a true success flag is returned
unchanged. -/
theorem twoxx_envelope_success_check_witness :
    makeApiRequest ⟨"/zones", "GET", .undef⟩
        (fun _ => .response 200 "OK" (.parsed ⟨true, none, some "zone-z1"⟩)) =
      .ok ⟨true, none, some "zone-z1"⟩ :=
  (twoxx_envelope_success_check ⟨"/zones", "GET", .undef⟩ 200 "OK"
      ⟨true, none, some "zone-z1"⟩ (by decide) (by decide)).2 rfl

/-- Claim C6: the user message mapping of a classified error, checked in
order with the first match winning — 401 or 403 yields the credential
guidance, 429 the rate-limit guidance, 404 the not-found guidance, any
status at least 500 the transient upstream guidance, and any other
status the original message text followed by the listing of every
structured error message. -/
theorem getUserMessage_mapping (e : CloudflareApiError) :
    ((e.statusCode = 401 ∨ e.statusCode = 403) →
      e.getUserMessage = authFailedMessage) ∧
    (e.statusCode = 429 → e.getUserMessage = rateLimitMessage) ∧
    (e.statusCode = 404 → e.getUserMessage = notFoundMessage) ∧
    (500 ≤ e.statusCode → e.getUserMessage = serverErrorMessage) ∧
    (e.statusCode ≠ 401 → e.statusCode ≠ 403 → e.statusCode ≠ 429 →
      e.statusCode ≠ 404 → e.statusCode < 500 →
      e.getUserMessage = e.message ++ errorsListing e.errors) := by
  refine ⟨?_, ?_, ?_, ?_, ?_⟩
  · intro h
    rcases h with h | h <;> simp [CloudflareApiError.getUserMessage, h]
  · intro h
    have h1 : ¬ (e.statusCode = 401 ∨ e.statusCode = 403) := by omega
    simp [CloudflareApiError.getUserMessage, h, h1]
  · intro h
    have h1 : ¬ (e.statusCode = 401 ∨ e.statusCode = 403) := by omega
    have h2 : e.statusCode ≠ 429 := by omega
    simp [CloudflareApiError.getUserMessage, h, h1, h2]
  · intro h
    have h1 : ¬ (e.statusCode = 401 ∨ e.statusCode = 403) := by omega
    have h2 : e.statusCode ≠ 429 := by omega
    have h3 : e.statusCode ≠ 404 := by omega
    simp [CloudflareApiError.getUserMessage, h, h1, h2, h3]
  · intro h1 h2 h3 h4 h5
    have h0 : ¬ (e.statusCode = 401 ∨ e.statusCode = 403) := by omega
    have h6 : ¬ 500 ≤ e.statusCode := by omega
    simp [CloudflareApiError.getUserMessage, h0, h3, h4, h6]

/-- Witness for C6: a 418 error falls through to the default branch and
keeps the original message followed by the error listing. -/
theorem getUserMessage_mapping_witness :
    CloudflareApiError.getUserMessage
        ⟨"API request failed: I am a teapot", 418, [⟨7, "short and stout"⟩]⟩ =
      "API request failed: I am a teapot" ++ errorsListing [⟨7, "short and stout"⟩] :=
  (getUserMessage_mapping
      ⟨"API request failed: I am a teapot", 418, [⟨7, "short and stout"⟩]⟩).2.2.2.2
    (by decide) (by decide) (by decide) (by decide) (by decide)

/-- Claim C7: `loadConfig` fails exactly when `CLOUDFLARE_API_KEY` is
unset or the empty string, and otherwise succeeds returning that
credential unchanged together with the optional account id and email. -/
theorem loadConfig_requires_api_key (env : ProcessEnv) :
    ((∃ ce, loadConfig env = .error ce) ↔
      (env.CLOUDFLARE_API_KEY = none ∨ env.CLOUDFLARE_API_KEY = some "")) ∧
    (∀ k, env.CLOUDFLARE_API_KEY = some k → k ≠ "" →
      loadConfig env = .ok ⟨k, env.CLOUDFLARE_ACCOUNT_ID, env.CLOUDFLARE_EMAIL⟩) := by
  constructor
  · rcases henv : env.CLOUDFLARE_API_KEY with _ | k
    · simp [loadConfig, henv]
    · by_cases hk : k = ""
      · subst hk
        simp [loadConfig, henv]
      · simp [loadConfig, henv, hk]
  · intro k hk hne
    simp [loadConfig, hk, hne]

/-- Witness for C7: a set credential is returned unchanged together with
the optional account id. -/
theorem loadConfig_requires_api_key_witness :
    loadConfig ⟨some "my-token", some "acct-1", none⟩ =
      .ok ⟨"my-token", some "acct-1", none⟩ :=
  (loadConfig_requires_api_key ⟨some "my-token", some "acct-1", none⟩).2
    "my-token" rfl (by decide)

/-- Claim C9: the classified error produced from a 2xx response whose
envelope has a falsy success flag carries the 2xx status, which is not a
client error in [400, 500), so the retry loop treats it as transient and
retries it with backoff up to the maximum attempts instead of
propagating it immediately. -/
theorem application_failure_2xx_retried
    (desc : RequestDescriptor) (status : Nat) (statusText : String)
    (data : ResponseData) (opts : RetryOptions)
    (h2 : 200 ≤ status) (h3 : status ≤ 299)
    (hs : data.success = false) (hmax : 1 ≤ opts.maxAttempts) :
    makeApiRequest desc (fun _ => .response status statusText (.parsed data)) =
      .error (.classified
        ⟨"API returned success: false", status, data.errors.getD []⟩) ∧
    isNonRetryable
      (.classified ⟨"API returned success: false", status, data.errors.getD []⟩) =
      false ∧
    (makeApiRequestWithRetry
        (fun _ => makeApiRequest desc
          (fun _ => .response status statusText (.parsed data)))
        opts).calls = opts.maxAttempts ∧
    (makeApiRequestWithRetry
        (fun _ => makeApiRequest desc
          (fun _ => .response status statusText (.parsed data)))
        opts).waits.length = opts.maxAttempts - 1 := by
  have hreq : makeApiRequest desc
      (fun _ => .response status statusText (.parsed data)) =
      .error (.classified
        ⟨"API returned success: false", status, data.errors.getD []⟩) := by
    simp [makeApiRequest, h2, h3, hs]
  have hnr : isNonRetryable
      (.classified ⟨"API returned success: false", status, data.errors.getD []⟩) =
      false := by
    simp only [isNonRetryable, decide_eq_false_iff_not]
    omega
  obtain ⟨hcalls, hwaits, _⟩ := retryFromAttempt_transientAll
    (fun _ => makeApiRequest desc (fun _ => .response status statusText (.parsed data)))
    opts opts.maxAttempts 1 hmax
    (fun i _ _ =>
      ⟨.classified ⟨"API returned success: false", status, data.errors.getD []⟩,
        hreq, hnr⟩)
  refine ⟨hreq, hnr, hcalls, ?_⟩
  simp only [makeApiRequestWithRetry]
  rw [hwaits]
  simp

/-- Witness for C9: the 200-with-false-success scenario is retried up to
the default 3 attempts. -/
theorem application_failure_2xx_retried_witness :
    (makeApiRequestWithRetry
        (fun _ => makeApiRequest ⟨"/zones", "GET", .undef⟩
          (fun _ => .response 200 "OK"
            (.parsed ⟨false, some [⟨1003, "Invalid zone"⟩], none⟩)))
        defaultRetryOptions).calls = 3 :=
  (application_failure_2xx_retried ⟨"/zones", "GET", .undef⟩ 200 "OK"
      ⟨false, some [⟨1003, "Invalid zone"⟩], none⟩ defaultRetryOptions
      (by decide) (by decide) rfl (by decide)).2.2.1

/-- Claim C10: a request body is attached only when the body is truthy
and the method is not GET — a falsy body (in particular the empty
string) is sent with no body at all, a truthy string body is sent
as-is, and a truthy non-string body is JSON-serialized. -/
theorem request_body_attachment (m : String) (b : JsBody) :
    (b.truthy = false → requestBodyOf m b = none) ∧
    (requestBodyOf "GET" b = none) ∧
    (requestBodyOf m (.strVal "") = none) ∧
    (∀ s, s ≠ "" → m ≠ "GET" → requestBodyOf m (.strVal s) = some s) ∧
    (b.truthy = true → (∀ s, b ≠ JsBody.strVal s) → m ≠ "GET" →
      requestBodyOf m b = some b.stringify) := by
  refine ⟨?_, ?_, ?_, ?_, ?_⟩
  · intro h
    simp [requestBodyOf, h]
  · simp [requestBodyOf]
  · simp [requestBodyOf, JsBody.truthy]
  · intro s hs hm
    simp [requestBodyOf, JsBody.truthy, hs, hm]
  · intro ht hns hm
    cases b with
    | undef => simp [JsBody.truthy] at ht
    | nullVal => simp [JsBody.truthy] at ht
    | boolVal bb =>
      simp only [JsBody.truthy] at ht
      simp [requestBodyOf, JsBody.truthy, ht, hm]
    | numVal n =>
      simp only [JsBody.truthy, decide_eq_true_eq] at ht
      simp [requestBodyOf, JsBody.truthy, ht, hm]
    | strVal s => exact absurd rfl (hns s)
    | objVal j =>
      simp [requestBodyOf, JsBody.truthy, hm]

/-- Witness for C10: a PUT whose body is the empty string attaches no
body. -/
theorem request_body_attachment_witness :
    requestBodyOf "PUT" (JsBody.strVal "") = none :=
  (request_body_attachment "PUT" (JsBody.strVal "")).2.2.1
